import Mathlib

set_option maxRecDepth 100000

/-
  Verification development for build_img.py (MMUKO-OS boot image generator).

  Shallow embedding: bytes are Nat (all literals are < 256), files are lists
  of bytes, the filesystem is an explicit record threaded through the
  operations, and Python exceptions are modelled with Except.
-/

/-- Python exceptions that the modelled library calls can raise. -/
inductive PyErr where
  | fileNotFoundError
  | indexError
  | unicodeDecodeError
deriving DecidableEq, Repr

/-- Filesystem state: the set of directories known to exist and the files
with their byte contents.  Models only what build_img.py touches. -/
structure FS where
  dirs : List String
  files : List (String × List Nat)
deriving DecidableEq, Repr

def FS.empty : FS := ⟨[], []⟩

/-- Contents of a file, if it exists (models open(path, 'rb') followed by read()). -/
def readFile (path : String) (fs : FS) : Option (List Nat) :=
  (fs.files.find? (fun e => e.1 == path)).map (fun e => e.2)

/-- Overwrite a file with new contents (models open(path, 'wb') followed by write). -/
def writeFile (path : String) (data : List Nat) (fs : FS) : FS :=
  ⟨fs.dirs, (path, data) :: fs.files.filter (fun e => !(e.1 == path))⟩

/-- Index of the last '/' in a character list, if any. -/
def rfindSlash (cs : List Char) : Option Nat :=
  ((List.range cs.length).filter (fun i => cs.getD i ' ' == '/')).getLast?

/-- Strip trailing '/' characters. -/
def rstripSlash (cs : List Char) : List Char :=
  (cs.reverse.dropWhile (fun c => c == '/')).reverse

/-- Model of os.path.dirname (posixpath): everything up to the last '/',
with trailing slashes stripped unless the head is all slashes. -/
def dirname (p : String) : String :=
  let cs := p.data
  let i := match rfindSlash cs with
    | some j => j + 1
    | none => 0
  let head := cs.take i
  if head ≠ [] ∧ head ≠ List.replicate head.length '/' then
    String.mk (rstripSlash head)
  else
    String.mk head

/-- Model of os.makedirs(name, exist_ok=True) under normal filesystem
conditions (no permission or disk errors): it succeeds for every nonempty
path, creating the directory, and raises FileNotFoundError for the empty
string, because os.mkdir('') fails with errno ENOENT and the exist_ok
handler re-raises since os.path.isdir('') is false. -/
def makedirs (name : String) (fs : FS) : Except PyErr FS :=
  if name = "" then Except.error PyErr.fileNotFoundError
  else Except.ok ⟨name :: fs.dirs, fs.files⟩

/-- The RIFT magic bytes b'NXOB'. -/
def magicLit : List Nat := [0x4E, 0x58, 0x4F, 0x42]

/-- The hand-assembled x86 boot code placed at offset 8. -/
def boot_code : List Nat :=
  [0xFA,
   0x31, 0xC0,
   0x8E, 0xD8,
   0x8E, 0xC0,
   0xBC, 0x00, 0x7C,
   0xBE, 0x60, 0x7C,
   0xB4, 0x0E,
   0xAC,
   0x08, 0xC0,
   0x74, 0x04,
   0xCD, 0x10,
   0xEB, 0xF5,
   0xB0, 0x55,
   0xF4,
   0xEB, 0xFE]

/-- The NUL-terminated boot message placed at offset 0x60 (ASCII bytes of the
literal in the source). -/
def msg : List Nat :=
  [61, 61, 61, 32, 77, 77, 85, 75, 79, 45, 79, 83, 32, 82, 73, 78, 71, 66,
   79, 79, 84, 32, 61, 61, 61, 13, 10, 79, 66, 73, 78, 69, 88, 85, 83, 32,
   78, 83, 73, 71, 73, 73, 32, 86, 101, 114, 105, 102, 121, 13, 10, 91, 80,
   104, 97, 115, 101, 32, 49, 93, 32, 83, 80, 65, 82, 83, 69, 13, 10, 91,
   80, 104, 97, 115, 101, 32, 50, 93, 32, 82, 69, 77, 69, 77, 66, 69, 82,
   13, 10, 91, 80, 104, 97, 115, 101, 32, 51, 93, 32, 65, 67, 84, 73, 86,
   69, 13, 10, 91, 80, 104, 97, 115, 101, 32, 52, 93, 32, 86, 69, 82, 73,
   70, 89, 13, 10, 10, 78, 83, 73, 71, 73, 73, 95, 86, 69, 82, 73, 70, 73,
   69, 68, 13, 10, 66, 79, 79, 84, 95, 83, 85, 67, 67, 69, 83, 83, 13, 10,
   0]

/-- Python slice assignment sector[off : off + v.length] = v. -/
def setRange (l : List Nat) (off : Nat) (v : List Nat) : List Nat :=
  l.take off ++ v ++ l.drop (off + v.length)

/-- The 512-byte sector built by create_boot_image: a zero-filled buffer with
the RIFT header, boot code, boot message and boot signature copied in at
their fixed offsets, in source order. -/
def bootSector : List Nat :=
  let s := List.replicate 512 0
  let s := setRange s 0 magicLit
  let s := s.set 4 0x01
  let s := s.set 5 0x00
  let s := s.set 6 0xFE
  let s := s.set 7 0x01
  let s := setRange s 8 boot_code
  let s := setRange s 0x60 msg
  let s := s.set 510 0x55
  let s := s.set 511 0xAA
  s

/-- Model of create_boot_image: create the output directory with
os.makedirs(os.path.dirname(output_path), exist_ok=True), then write the
sector; returns the output path as the source does. -/
def create_boot_image (output_path : String) (fs : FS) : Except PyErr (FS × String) :=
  match makedirs (dirname output_path) fs with
  | Except.error e => Except.error e
  | Except.ok fs1 => Except.ok (writeFile output_path bootSector fs1, output_path)

/-- Python indexing data[i] on bytes: the value, or IndexError when out of range. -/
def pyIndex (data : List Nat) (i : Nat) : Except PyErr Nat :=
  match data.get? i with
  | some v => Except.ok v
  | none => Except.error PyErr.indexError

/-- Python bytes.decode('ascii'): succeeds iff every byte is < 128. -/
def pyDecodeAscii (bs : List Nat) : Except PyErr (List Nat) :=
  if bs.all (fun b => b < 128) then Except.ok bs else Except.error PyErr.unicodeDecodeError

/-- The diagnostic printed by verify_image when a check fails; each carries
the actual value reported next to the fixed expected value. -/
inductive Diag where
  | sizeError (actual : Nat)
  | magicError (actual : List Nat)
  | sigError (b510 b511 : Nat)
deriving DecidableEq, Repr

/-- The check sequence of verify_image on the bytes read from the file:
length, then magic, then the two signature bytes (indexed as data[510] and
data[511], which in Python could raise); returns the boolean result and the
diagnostic printed on failure, if any. -/
def verifyData (data : List Nat) : Except PyErr (Bool × Option Diag) :=
  if data.length ≠ 512 then Except.ok (false, some (Diag.sizeError data.length))
  else
    let magic := data.take 4
    if magic ≠ magicLit then Except.ok (false, some (Diag.magicError magic))
    else
      match pyIndex data 510, pyIndex data 511 with
      | Except.ok b510, Except.ok b511 =>
        if b510 ≠ 0x55 ∨ b511 ≠ 0xAA then Except.ok (false, some (Diag.sigError b510 b511))
        else Except.ok (true, none)
      | Except.error e, _ => Except.error e
      | _, Except.error e => Except.error e

/-- Model of verify_image: open and read the file, then run the checks.
The filesystem is returned alongside to record that the operation performs
no writes. -/
def verify_image (path : String) (fs : FS) : FS × Except PyErr (Bool × Option Diag) :=
  match readFile path fs with
  | none => (fs, Except.error PyErr.fileNotFoundError)
  | some data => (fs, verifyData data)

/-- Model of Python data.find(b'\x00', start): the lowest index i ≥ start
with data[i] = 0, or -1 when there is none. -/
def findNul (data : List Nat) (start : Nat) : Int :=
  match (List.range data.length).find? (fun i => decide (start ≤ i) && decide (data.getD i 1 = 0)) with
  | some i => Int.ofNat i
  | none => -1

/-- The message-extraction step of print_info: msg_end = data.find(b'\x00', 0x60);
the slice data[0x60 : msg_end] is printed only when msg_end > 0x60. -/
def print_info_msg (data : List Nat) : Option (List Nat) :=
  let msg_end := findNul data 0x60
  if (0x60 : Int) < msg_end then some ((data.take msg_end.toNat).drop 0x60) else none

/-- Model of print_info: open and read the file, evaluate the indexed fields
in source order (each can raise on a short or non-ASCII file), then extract
the boot message.  Returns the filesystem unchanged and the message printed,
if any. -/
def print_info_run (path : String) (fs : FS) : FS × Except PyErr (Option (List Nat)) :=
  match readFile path fs with
  | none => (fs, Except.error PyErr.fileNotFoundError)
  | some data =>
    (fs,
      match pyDecodeAscii (data.take 4) with
      | Except.error e => Except.error e
      | Except.ok _ =>
        match pyIndex data 4, pyIndex data 6, pyIndex data 510, pyIndex data 511 with
        | Except.ok _, Except.ok _, Except.ok _, Except.ok _ =>
          Except.ok (print_info_msg data)
        | Except.error e, _, _, _ => Except.error e
        | _, Except.error e, _, _ => Except.error e
        | _, _, Except.error e, _ => Except.error e
        | _, _, _, Except.error e => Except.error e)

/-- Build followed by verify on the same path, propagating any exception. -/
def roundTrip (path : String) (fs : FS) : Except PyErr Bool :=
  match create_boot_image path fs with
  | Except.error e => Except.error e
  | Except.ok (fs1, out) =>
    match (verify_image out fs1).2 with
    | Except.error e => Except.error e
    | Except.ok r => Except.ok r.1

/-- Output-path resolution of the __main__ block: sys.argv[1] if given
(extra arguments are ignored), else the fixed default path. -/
def resolve_output (argv : List String) : String :=
  match argv with
  | _ :: p :: _ => p
  | _ => "img/mmuko-os.img"

/-- Model of the __main__ block: resolve the output path, build, verify;
on success run print_info and finish with exit code 0, on verification
failure print the failure marker and exit 1.  Result: final filesystem,
exit code, and whether the failure marker was printed. -/
def main_run (argv : List String) (fs : FS) : Except PyErr (FS × Nat × Bool) :=
  let output := resolve_output argv
  match create_boot_image output fs with
  | Except.error e => Except.error e
  | Except.ok (fs1, _) =>
    let vr := verify_image output fs1
    match vr.2 with
    | Except.error e => Except.error e
    | Except.ok (okb, _) =>
      if okb then
        let pr := print_info_run output vr.1
        match pr.2 with
        | Except.error e => Except.error e
        | Except.ok _ => Except.ok (pr.1, 0, false)
      else
        Except.ok (vr.1, 1, true)

/-- Verification result as the specification words it: length check first
(fail with length mismatch), then magic (fail with magic mismatch), then the
signature bytes 510 and 511 against 0x55, 0xAA (fail with signature
mismatch); pass otherwise. -/
def spec_verify (data : List Nat) : Bool × Option Diag :=
  if data.length ≠ 512 then (false, some (Diag.sizeError data.length))
  else if data.take 4 ≠ magicLit then (false, some (Diag.magicError (data.take 4)))
  else if data.getD 510 0 ≠ 0x55 ∨ data.getD 511 0 ≠ 0xAA then
    (false, some (Diag.sigError (data.getD 510 0) (data.getD 511 0)))
  else (true, none)

/-- Index of the first NUL byte at or after position start, if any. -/
def specFirstNul (data : List Nat) (start : Nat) : Option Nat :=
  (List.range data.length).find? (fun i => decide (start ≤ i) && decide (data.getD i 1 = 0))

/-- Message extraction as the specification words it: the message ends at the
first NUL byte at or after offset 0x60 (the NUL excluded); when no NUL byte
is found there or later, no message is printed. -/
def spec_print_msg (data : List Nat) : Option (List Nat) :=
  match specFirstNul data 0x60 with
  | none => none
  | some i => some ((data.take i).drop 0x60)

/-- Amended message-extraction rule: additionally, when the first NUL at or
after offset 0x60 sits at exactly offset 0x60, no message is printed (the
source requires msg_end > 0x60 strictly). -/
def spec_print_msg_amended (data : List Nat) : Option (List Nat) :=
  match specFirstNul data 0x60 with
  | none => none
  | some i => if 0x60 < i then some ((data.take i).drop 0x60) else none

/-- The literal boot message text up to, and not including, the terminating NUL. -/
def bootMsgText : List Nat := msg.dropLast

/-- Offsets of the sector that create_boot_image populates: header bytes
0 to 7, boot code from offset 8, message from offset 0x60, and the two
signature bytes 510 and 511. -/
def populatedOffset (i : Nat) : Prop :=
  i < 8 ∨ (8 ≤ i ∧ i < 8 + boot_code.length) ∨
    (0x60 ≤ i ∧ i < 0x60 + msg.length) ∨ i = 510 ∨ i = 511

instance (i : Nat) : Decidable (populatedOffset i) := by
  unfold populatedOffset; infer_instance

theorem pyIndex_lt (data : List Nat) (i : Nat) (h : i < data.length) :
    pyIndex data i = Except.ok (data.getD i 0) := by
  unfold pyIndex
  simp [List.get?_eq_getElem?, List.getElem?_eq_getElem h, List.getD_eq_getElem data 0 h]

theorem verifyData_eq_spec (data : List Nat) :
    verifyData data = Except.ok (spec_verify data) := by
  unfold verifyData spec_verify
  by_cases h1 : data.length ≠ 512
  · simp [h1]
  · have h512 : data.length = 512 := by omega
    rw [if_neg h1, if_neg h1]
    by_cases h2 : data.take 4 ≠ magicLit
    · simp [h2]
    · rw [if_neg h2, if_neg h2]
      rw [pyIndex_lt data 510 (by omega), pyIndex_lt data 511 (by omega)]
      rw [apply_ite Except.ok]

theorem readFile_writeFile (p : String) (d : List Nat) (fs : FS) :
    readFile p (writeFile p d fs) = some d := by
  unfold readFile writeFile
  simp [List.find?]

theorem create_ok_inv (p : String) (fs fs1 : FS) (out : String)
    (h : create_boot_image p fs = Except.ok (fs1, out)) :
    out = p ∧ readFile out fs1 = some bootSector := by
  unfold create_boot_image at h
  cases hm : makedirs (dirname p) fs with
  | error e => rw [hm] at h; cases h
  | ok fs2 =>
    rw [hm] at h
    injection h with h
    injection h with hfs hout
    subst hfs; subst hout
    exact ⟨rfl, readFile_writeFile p bootSector fs2⟩

theorem spec_verify_true_iff (data : List Nat) :
    (spec_verify data).1 = true ↔
    (data.length = 512 ∧ data.take 4 = magicLit ∧
     data.getD 510 0 = 0x55 ∧ data.getD 511 0 = 0xAA) := by
  unfold spec_verify
  split_ifs with h1 h2 h3
  all_goals simp_all
  all_goals tauto

theorem spec_verify_false_iff (data : List Nat) :
    (spec_verify data).1 = false ↔ (spec_verify data).2.isSome = true := by
  unfold spec_verify
  split_ifs with h1 h2 h3 <;> simp_all

/-- C1: the build-then-verify round trip succeeds on the default path, but on
a bare filename with no directory component the build itself raises
FileNotFoundError (os.makedirs of the empty dirname), so Verify(Build(path))
is not true for every output path under normal filesystem conditions. -/
theorem c1_roundtrip_default_ok_bare_raises :
    roundTrip "img/mmuko-os.img" FS.empty = Except.ok true ∧
    roundTrip "mmuko-os.img" FS.empty = Except.error PyErr.fileNotFoundError :=
  ⟨rfl, rfl⟩

/-- C5: create_boot_image does not succeed for a bare filename whose writes
are permitted: os.path.dirname of a bare filename is the empty string and
os.makedirs('') raises FileNotFoundError; with a nonempty directory component
the build succeeds, creating the directory. -/
theorem c5_bare_filename_raises :
    dirname "mmuko-os.img" = "" ∧
    create_boot_image "mmuko-os.img" FS.empty = Except.error PyErr.fileNotFoundError ∧
    dirname "img/mmuko-os.img" = "img" ∧
    create_boot_image "img/mmuko-os.img" FS.empty =
      Except.ok (writeFile "img/mmuko-os.img" bootSector (FS.mk ["img"] []), "img/mmuko-os.img") :=
  ⟨rfl, rfl, rfl, rfl⟩

/-- C2: on every readable file, verify_image raises nothing and returns
exactly the result the specification describes: the checks run in the order
length, magic, signature, the first failing check selects the reported
mismatch, and the result is true iff the length is 512, bytes 0-3 are the
magic literal, and bytes 510-511 are 0x55, 0xAA. -/
theorem c2_verify_iff_and_order : ∀ (path : String) (fs : FS) (data : List Nat),
    readFile path fs = some data →
    verify_image path fs = (fs, Except.ok (spec_verify data)) ∧
    ((spec_verify data).1 = true ↔
      (data.length = 512 ∧ data.take 4 = magicLit ∧
       data.getD 510 0 = 0x55 ∧ data.getD 511 0 = 0xAA)) := by
  intro path fs data h
  constructor
  · unfold verify_image
    rw [h]
    show (fs, verifyData data) = (fs, Except.ok (spec_verify data))
    rw [verifyData_eq_spec]
  · exact spec_verify_true_iff data

/-- Witness for C2 at a concrete three-byte file. -/
theorem c2_verify_iff_and_order_witness :
    verify_image "f" (writeFile "f" [1, 2, 3] FS.empty) =
      (writeFile "f" [1, 2, 3] FS.empty, Except.ok (spec_verify [1, 2, 3])) ∧
    ((spec_verify [1, 2, 3]).1 = true ↔
      (([1, 2, 3] : List Nat).length = 512 ∧ ([1, 2, 3] : List Nat).take 4 = magicLit ∧
       ([1, 2, 3] : List Nat).getD 510 0 = 0x55 ∧ ([1, 2, 3] : List Nat).getD 511 0 = 0xAA)) :=
  c2_verify_iff_and_order "f" (writeFile "f" [1, 2, 3] FS.empty) [1, 2, 3] rfl

/-- C3: every successful build leaves at the returned path a file equal to
the fixed 512-byte sector, whose length is 512, whose bytes 0-3 are the
magic literal, and whose bytes 510-511 are 0x55, 0xAA. -/
theorem c3_produced_file_layout : ∀ (p : String) (fs fs1 : FS) (out : String),
    create_boot_image p fs = Except.ok (fs1, out) →
    readFile out fs1 = some bootSector ∧ bootSector.length = 512 ∧
    bootSector.take 4 = magicLit ∧
    bootSector.getD 510 0 = 0x55 ∧ bootSector.getD 511 0 = 0xAA := by
  intro p fs fs1 out h
  refine ⟨(create_ok_inv p fs fs1 out h).2, ?_, ?_, ?_, ?_⟩ <;> decide

/-- Witness for C3 at the default path from the empty filesystem. -/
theorem c3_produced_file_layout_witness :
    readFile "img/mmuko-os.img"
        (writeFile "img/mmuko-os.img" bootSector (FS.mk ["img"] [])) = some bootSector ∧
    bootSector.length = 512 ∧ bootSector.take 4 = magicLit ∧
    bootSector.getD 510 0 = 0x55 ∧ bootSector.getD 511 0 = 0xAA :=
  c3_produced_file_layout "img/mmuko-os.img" FS.empty
    (writeFile "img/mmuko-os.img" bootSector (FS.mk ["img"] [])) "img/mmuko-os.img" rfl

/-- C6: on every readable file, verify_image raises no exception: it returns
a boolean, and the boolean is false exactly when a diagnostic for the failed
check was printed. -/
theorem c6_failure_no_exception : ∀ (path : String) (fs : FS) (data : List Nat),
    readFile path fs = some data →
    ∃ b d, verify_image path fs = (fs, Except.ok (b, d)) ∧
      (b = false ↔ d.isSome = true) := by
  intro path fs data h
  refine ⟨(spec_verify data).1, (spec_verify data).2, ?_, spec_verify_false_iff data⟩
  unfold verify_image
  rw [h]
  show (fs, verifyData data) = _
  rw [verifyData_eq_spec]

/-- Witness for C6 at a concrete failing three-byte file. -/
theorem c6_failure_no_exception_witness :
    ∃ b d, verify_image "g" (writeFile "g" [1, 2, 3] FS.empty) =
      (writeFile "g" [1, 2, 3] FS.empty, Except.ok (b, d)) ∧
      (b = false ↔ d.isSome = true) :=
  c6_failure_no_exception "g" (writeFile "g" [1, 2, 3] FS.empty) [1, 2, 3] rfl

/-- C9: create_boot_image is deterministic and path-independent: any two
successful invocations, from any filesystems and with any output paths,
write the same 512-byte contents, namely the fixed sector. -/
theorem c9_output_path_independent :
    ∀ (p1 p2 : String) (fs1 fs2 fsa fsb : FS) (o1 o2 : String),
    create_boot_image p1 fs1 = Except.ok (fsa, o1) →
    create_boot_image p2 fs2 = Except.ok (fsb, o2) →
    readFile o1 fsa = some bootSector ∧ readFile o2 fsb = some bootSector ∧
    readFile o1 fsa = readFile o2 fsb := by
  intro p1 p2 fs1 fs2 fsa fsb o1 o2 h1 h2
  have a := (create_ok_inv p1 fs1 fsa o1 h1).2
  have b := (create_ok_inv p2 fs2 fsb o2 h2).2
  exact ⟨a, b, a.trans b.symm⟩

/-- Witness for C9 at two concrete paths from the empty filesystem. -/
theorem c9_output_path_independent_witness :
    readFile "a/x" (writeFile "a/x" bootSector (FS.mk ["a"] [])) = some bootSector ∧
    readFile "b/y" (writeFile "b/y" bootSector (FS.mk ["b"] [])) = some bootSector ∧
    readFile "a/x" (writeFile "a/x" bootSector (FS.mk ["a"] [])) =
      readFile "b/y" (writeFile "b/y" bootSector (FS.mk ["b"] [])) :=
  c9_output_path_independent "a/x" "b/y" FS.empty FS.empty
    (writeFile "a/x" bootSector (FS.mk ["a"] []))
    (writeFile "b/y" bootSector (FS.mk ["b"] []))
    "a/x" "b/y" rfl rfl

/-- C10: verify_image and print_info leave the filesystem, and hence every
file, exactly as they found it: both only open and read. -/
theorem c10_operations_read_only : ∀ (path : String) (fs : FS),
    (verify_image path fs).1 = fs ∧ (print_info_run path fs).1 = fs := by
  intro path fs
  unfold verify_image print_info_run
  cases readFile path fs <;> exact ⟨rfl, rfl⟩

theorem print_msg_eq_amended (data : List Nat) :
    print_info_msg data = spec_print_msg_amended data := by
  unfold print_info_msg findNul spec_print_msg_amended specFirstNul
  cases h : (List.range data.length).find?
      (fun i => decide (0x60 ≤ i) && decide (data.getD i 1 = 0)) with
  | none => norm_num
  | some i =>
    by_cases hi : 0x60 < i
    · have hi2 : (0x60 : Int) < Int.ofNat i := Int.ofNat_lt.mpr hi
      simp [hi, hi2]
    · have hi2 : ¬ (0x60 : Int) < Int.ofNat i := fun hc => hi (Int.ofNat_lt.mp hc)
      simp [hi, hi2]

/-- C4 counterexample: on a file whose byte at offset 0x60 is already NUL
(here the all-zero 512-byte file), the first NUL at or after offset 0x60
exists, so the claimed extraction rule yields the empty message, yet
print_info prints no message at all because the source requires
msg_end > 0x60 strictly. -/
theorem c4_nul_at_sixty_counterexample :
    print_info_msg (List.replicate 512 0) = none ∧
    spec_print_msg (List.replicate 512 0) = some [] ∧
    print_info_msg (List.replicate 512 0) ≠ spec_print_msg (List.replicate 512 0) := by
  refine ⟨by decide, by decide, by decide⟩

/-- C4 amended: the message printed by print_info ends at the first NUL byte
at or after offset 0x60 (the NUL excluded) provided that NUL sits strictly
after offset 0x60; when there is no NUL at or after 0x60, or the first one
sits at exactly 0x60, no message is printed; on the built image the printed
message is the literal text at offset 0x60 up to the terminating NUL. -/
theorem c4_message_extraction_amended :
    (∀ data : List Nat, print_info_msg data = spec_print_msg_amended data) ∧
    print_info_msg bootSector = some bootMsgText :=
  ⟨print_msg_eq_amended, by decide⟩

/-- C7: in every file produced by create_boot_image, each byte outside the
populated regions (header at 0-7, boot code from 8, message from 0x60,
signature at 510-511) is zero, the buffer having been allocated zero-filled. -/
theorem c7_unpopulated_bytes_zero : ∀ (p : String) (fs fs1 : FS) (out : String),
    create_boot_image p fs = Except.ok (fs1, out) →
    ∀ data, readFile out fs1 = some data →
    ∀ i : Fin 512, ¬ populatedOffset i.val → data.getD i.val 1 = 0 := by
  intro p fs fs1 out h data hread i
  have hr := (create_ok_inv p fs fs1 out h).2
  rw [hr] at hread
  injection hread with hread
  subst hread
  revert i
  decide

/-- Witness for C7 at offset 40 (between the boot code and the message). -/
theorem c7_unpopulated_bytes_zero_witness :
    ¬ populatedOffset 40 ∧ bootSector.getD 40 1 = 0 :=
  ⟨by decide,
   c7_unpopulated_bytes_zero "img/mmuko-os.img" FS.empty
     (writeFile "img/mmuko-os.img" bootSector (FS.mk ["img"] [])) "img/mmuko-os.img" rfl
     bootSector rfl ⟨40, by decide⟩ (by decide)⟩

/-- C8: the program uses at most one positional argument, sys.argv[1],
as the output path, defaulting to img/mmuko-os.img; every normal termination
of the main block either exited with code 0 and no failure marker after the
built image verified true, or exited with code 1 and the failure marker
after it verified false. -/
theorem c8_cli_exit_codes :
    (∀ prog : String, resolve_output [prog] = "img/mmuko-os.img") ∧
    (∀ (prog p : String) (rest : List String), resolve_output (prog :: p :: rest) = p) ∧
    (∀ (argv : List String) (fs fsf : FS) (code : Nat) (marker : Bool),
      main_run argv fs = Except.ok (fsf, code, marker) →
      ∃ fs1 d, create_boot_image (resolve_output argv) fs =
          Except.ok (fs1, resolve_output argv) ∧
        ((verify_image (resolve_output argv) fs1).2 = Except.ok (true, d) ∧
           code = 0 ∧ marker = false ∨
         (verify_image (resolve_output argv) fs1).2 = Except.ok (false, d) ∧
           code = 1 ∧ marker = true)) := by
  refine ⟨fun prog => rfl, fun prog p rest => rfl, ?_⟩
  intro argv fs fsf code marker h
  simp only [main_run] at h
  split at h
  · exact absurd h (by simp)
  · rename_i fs1 out heq
    split at h
    · exact absurd h (by simp)
    · rename_i okb snd hv
      have hgoal : create_boot_image (resolve_output argv) fs =
          Except.ok (fs1, resolve_output argv) := by
        rw [heq, (create_ok_inv _ _ _ _ heq).1]
      cases okb
      · rw [if_neg (by simp)] at h
        simp only [Except.ok.injEq, Prod.mk.injEq] at h
        exact ⟨fs1, snd, hgoal, Or.inr ⟨hv, h.2.1.symm, h.2.2.symm⟩⟩
      · rw [if_pos rfl] at h
        split at h
        · exact absurd h (by simp)
        · simp only [Except.ok.injEq, Prod.mk.injEq] at h
          exact ⟨fs1, snd, hgoal, Or.inl ⟨hv, h.2.1.symm, h.2.2.symm⟩⟩

/-- Witness for C8: running with no argument from the empty filesystem
builds at the default path, verifies true, and exits 0. -/
theorem c8_cli_exit_codes_witness :
    ∃ fs1 d, create_boot_image (resolve_output ["prog"]) FS.empty =
        Except.ok (fs1, resolve_output ["prog"]) ∧
      ((verify_image (resolve_output ["prog"]) fs1).2 = Except.ok (true, d) ∧
         (0 : Nat) = 0 ∧ false = false ∨
       (verify_image (resolve_output ["prog"]) fs1).2 = Except.ok (false, d) ∧
         (0 : Nat) = 1 ∧ false = true) :=
  c8_cli_exit_codes.2.2 ["prog"] FS.empty
    (writeFile "img/mmuko-os.img" bootSector (FS.mk ["img"] [])) 0 false rfl
